import Mathlib

/-!
Shallow embedding of the trace/evaluation core of the customer-support demo
pipeline (evaluators, tracer, aggregation/export), together with theorems
checking the specification's claims against the embedded code.

Conventions of the embedding:
* Python floats are modelled as exact rationals (`ℚ`); `round(x, n)` is
  modelled by `round3` / `round2` below.
* Python dicts whose shape the code relies on are modelled as structures;
  dicts used as string-keyed maps are association lists (`List (String × _)`)
  with `List.lookup` (Python dicts cannot hold duplicate keys).
* `dict.get(k, default)` with a possibly-absent key becomes an `Option`
  lookup followed by `getD`.
* A second, untyped embedding (`PyVal`, further below) models Python values
  together with the exceptions (`KeyError`, `AttributeError`, `TypeError`)
  that attribute/key access can raise; it is used for the error-handling
  claims.
-/

/-- Python's `round(x)` on exact rationals: round to nearest, ties to even
(banker's rounding). -/
def pyRoundInt (q : ℚ) : ℤ :=
  if q - (⌊q⌋ : ℚ) < 1/2 then ⌊q⌋
  else if 1/2 < q - (⌊q⌋ : ℚ) then ⌊q⌋ + 1
  else if ⌊q⌋ % 2 = 0 then ⌊q⌋ else ⌊q⌋ + 1

/-- Python `round(x, 3)`, on exact rationals. -/
def round3 (q : ℚ) : ℚ := (pyRoundInt (q * 1000) : ℚ) / 1000

/-- Python `round(x, 2)`, on exact rationals. -/
def round2 (q : ℚ) : ℚ := (pyRoundInt (q * 100) : ℚ) / 100

/-- A Python scalar usable as a ticket id (the code applies `str(...)` to it). -/
inductive PyScalar where
  | s : String → PyScalar
  | i : Int → PyScalar
deriving Repr, DecidableEq

/-- Python `str(x)` on a scalar. -/
def PyScalar.str : PyScalar → String
  | .s v => v
  | .i v => toString v

/-- Safety flags sub-record returned by `SafetyEvaluator` (`{pii, toxic}`). -/
structure SafetyFlags where
  pii : Bool
  toxic : Bool
deriving Repr, DecidableEq

/-- The normalized record produced by every evaluator:
`{name, score, reasoning, passed}` plus the optional `flags` sub-record
(present only for the safety evaluator). Scores that are Python booleans
(composite) are embedded as `0`/`1` rationals. -/
structure EvalRecord where
  name : String
  score : ℚ
  reasoning : String
  passed : Bool
  flags : Option SafetyFlags := none
deriving Repr, DecidableEq

/-- One entry of `data/ground_truth.py`'s `GROUND_TRUTH_ENHANCED`. -/
structure GTEntry where
  expected_category : Option String := none
  expected_keywords : List String := []
  expected_tone : Option String := none
  has_action_steps : Option Bool := none
deriving Repr, DecidableEq

/-- The `GROUND_TRUTH` table from `data/ground_truth.py` (= `GROUND_TRUTH_ENHANCED`),
keyed by ticket id; the `demo_note` fields carry no evaluation content and
are omitted. -/
def GROUND_TRUTH : List (String × GTEntry) :=
  [ ("1", { expected_category := some "upload_errors",
            expected_keywords := ["404", "endpoint", "url", "path"],
            expected_tone := some "friendly_technical",
            has_action_steps := some true }),
    ("2", { expected_category := some "account_access",
            expected_keywords := ["sso", "redirect", "identity provider", "saml"],
            expected_tone := some "reassuring",
            has_action_steps := some true }),
    ("3", { expected_category := some "data_export",
            expected_keywords := ["queue", "status", "processing"],
            expected_tone := some "urgent_but_calm",
            has_action_steps := some true }),
    ("4", { expected_category := some "account_access",
            expected_keywords := ["password", "reset", "link", "email"],
            expected_tone := some "reassuring",
            has_action_steps := some true }),
    ("5", { expected_category := some "upload_errors",
            expected_keywords := ["browser", "safari", "https", "compatibility", "ssl"],
            expected_tone := some "friendly_technical",
            has_action_steps := some true }),
    ("6", { expected_category := some "data_export",
            expected_keywords := ["json", "csv", "limit", "format"],
            expected_tone := some "pragmatic",
            has_action_steps := some true }),
    ("7", { expected_category := some "account_access",
            expected_keywords := ["2fa", "locked", "unlock", "administrator"],
            expected_tone := some "reassuring",
            has_action_steps := some true }),
    ("8", { expected_category := some "upload_errors",
            expected_keywords := ["cdn", "cache", "purge", "cloudflare"],
            expected_tone := some "friendly_technical",
            has_action_steps := some true }),
    ("9", { expected_category := some "data_export",
            expected_keywords := ["expired", "download", "regenerate", "24 hours"],
            expected_tone := some "pragmatic",
            has_action_steps := some true }),
    ("10", { expected_category := some "upload_errors",
             expected_keywords := ["https", "mixed content", "ssl", "security"],
             expected_tone := some "friendly_technical",
             has_action_steps := some true }) ]

/-- A ticket/datapoint as consumed by the evaluators: the code only
reads `ticket["id"]` (and, elsewhere, `ticket["issue"]`). -/
structure Ticket where
  id : PyScalar
  issue : Option String := none
deriving Repr, DecidableEq

/-- The `output` sub-dict of a pipeline result, as read by evaluators
(`output.category`; `answer` kept for completeness). -/
structure OutputR where
  category : Option String := none
  answer : Option String := none
deriving Repr, DecidableEq

/-- A step payload inside `result["steps"]`: a string-keyed dict whose
values, where the evaluators read them, are strings or `None`
(`some none` embeds Python `None`). -/
abbrev StepPayload := List (String × Option String)

/-- The pipeline result consumed by the evaluators: `evaluations` (map from
evaluator name to record), `steps` (map from stage name to payload), and
`output`. -/
structure ResultR where
  evaluations : List (String × EvalRecord) := []
  steps : List (String × StepPayload) := []
  output : Option OutputR := none
deriving Repr, DecidableEq

/-- Python's `str.lower()` restricted to the character-wise case mapping,
as a character list. -/
def pyLower (s : String) : List Char := s.toList.map Char.toLower

/-- Whether `needle` is a prefix of `hay` (executable). -/
def charPrefixOf : List Char → List Char → Bool
  | [], _ => true
  | _ :: _, [] => false
  | a :: as, b :: bs => a == b && charPrefixOf as bs

/-- Python's substring test `needle in hay` on character lists
(executable: tries every suffix of `hay`). -/
def containsSub (needle : List Char) : List Char → Bool
  | [] => charPrefixOf needle []
  | b :: rest => charPrefixOf needle (b :: rest) || containsSub needle rest

/-- The `_coverage` static method of `KeywordEvaluator`: fraction of expected keywords occurring
case-insensitively as substrings of the response; `0.0` when no keywords
are expected. -/
def KeywordEvaluator.coverage (expected : List String) (response : String) : ℚ :=
  let response_lower : List Char := pyLower response
  let nMatches : Nat :=
    (expected.filter (fun kw => containsSub (pyLower kw) response_lower)).length
  if expected.isEmpty then 0 else (nMatches : ℚ) / (expected.length : ℚ)

/-- Typed embedding of `KeywordEvaluator.evaluate`:
looks up expected keywords by string-coerced ticket id, reads the response
from `result["steps"]["step_3"]["response"]` (falling back to `""`),
rounds the coverage to 3 decimals and thresholds at `0.6`. -/
def KeywordEvaluator.evaluate (ticket : Ticket) (result : ResultR) : EvalRecord :=
  let ticket_id := ticket.id.str
  let expected :=
    ((GROUND_TRUTH.lookup ticket_id).map (·.expected_keywords)).getD []
  let response :=
    match (result.steps.lookup "step_3").getD [] |>.lookup "response" with
    | some (some s) => s
    | some none => ""
    | none => ""
  let coverage := round3 (KeywordEvaluator.coverage expected response)
  let passed := decide (coverage ≥ 0.6)
  { name := "keyword_coverage", score := coverage,
    reasoning := "matched " ++ toString (coverage * 100) ++ "% of expected keywords",
    passed := passed }

/-- Python truthiness of an optional string (`not x` is true for both
`None` and `""`). -/
def strOptTruthy : Option String → Bool
  | none => false
  | some s => !s.isEmpty

/-- Typed embedding of `RoutingEvaluator.evaluate`: compares the predicted category
(`result["output"]["category"]`) against the expected one from ground
truth (keyed by string-coerced ticket id); if either side is missing
(or empty, hence falsy) returns the sentinel `passed=false, score=1`. -/
def RoutingEvaluator.evaluate (ticket : Ticket) (result : ResultR) : EvalRecord :=
  let ticket_id := ticket.id.str
  let expected : Option String :=
    (GROUND_TRUTH.lookup ticket_id).bind (·.expected_category)
  let predicted : Option String :=
    match result.output with
    | some o => o.category
    | none => none
  if !(strOptTruthy expected) || !(strOptTruthy predicted) then
    { name := "routing_accuracy", score := 1,
      reasoning := "Missing expected or predicted category", passed := false }
  else
    let passed := expected == predicted
    let score : ℚ := if passed then 5 else 2
    { name := "routing_accuracy", score := score,
      reasoning := "expected=" ++ (expected.getD "") ++ ", predicted=" ++ (predicted.getD ""),
      passed := passed }

/-- Typed embedding of `CompositeEvaluator.evaluate`: AND of routing passed, keyword score
`≥ 0.6` and action-steps passed, read from the result's already-populated
`evaluations` map; missing entries default to `passed=False` / `score=0`.
The Python `score` is the boolean `passed` itself, embedded as `0`/`1`. -/
def CompositeEvaluator.evaluate (result : ResultR) : EvalRecord :=
  let evaluations := result.evaluations
  let routing_ok := ((evaluations.lookup "routing_accuracy").map (·.passed)).getD false
  let keyword_score : ℚ := ((evaluations.lookup "keyword_coverage").map (·.score)).getD 0
  let steps_ok := ((evaluations.lookup "action_steps").map (·.passed)).getD false
  let passed := routing_ok && decide (keyword_score ≥ (0.6 : ℚ)) && steps_ok
  { name := "composite", score := if passed then 1 else 0,
    reasoning := "routing_ok=" ++ toString routing_ok
      ++ ", keyword_score=" ++ toString keyword_score
      ++ ", action_steps=" ++ toString steps_ok,
    passed := passed }

/-- A character counting as `\w` for the regex word boundary `\b`
(ASCII fragment, which is all the embedded patterns rely on). -/
def isWordChar (c : Char) : Bool := c.isAlphanum || c == '_'

/-- One token of the embedded regex patterns: a digit class `\d` or a
literal character. -/
inductive RTok where
  | digit : RTok
  | lit : Char → RTok
deriving Repr, DecidableEq

/-- Does one token match one character? -/
def RTok.matches1 : RTok → Char → Bool
  | .digit, c => c.isDigit
  | .lit a, c => a == c

/-- Match a token list at the head of `cs`, returning the remaining
characters on success. -/
def matchToks : List RTok → List Char → Option (List Char)
  | [], rest => some rest
  | _ :: _, [] => none
  | t :: ts, c :: cs => if t.matches1 c then matchToks ts cs else none

/-- Whether `\b toks \b` matches exactly at this position: the previous character
(if any) is not a word character, the tokens match, and the following
character (if any) is not a word character. (All embedded patterns begin
and end with word characters, for which `\b` means exactly this.) -/
def boundedHere (toks : List RTok) (prev : Option Char) (cs : List Char) : Bool :=
  (match prev with
   | none => true
   | some p => !isWordChar p) &&
  (match matchToks toks cs with
   | some [] => true
   | some (r :: _) => !isWordChar r
   | none => false)

/-- The `re.search` of `\b toks \b`: try every position. -/
def boundedSearchAux (toks : List RTok) (prev : Option Char) : List Char → Bool
  | [] => boundedHere toks prev []
  | c :: cs => boundedHere toks prev (c :: cs) || boundedSearchAux toks (some c) cs

/-- Full `re.search(r"\b...\b", text)` as a boolean. -/
def boundedSearch (toks : List RTok) (cs : List Char) : Bool :=
  boundedSearchAux toks none cs

/-- Literal word as a token list. -/
def litToks (s : String) : List RTok := s.toList.map RTok.lit

/-- The SSN-like pattern `\b\d{3}-\d{2}-\d{4}\b`. -/
def ssnToks : List RTok :=
  [.digit, .digit, .digit, .lit '-', .digit, .digit, .lit '-',
   .digit, .digit, .digit, .digit]

/-- The 16-digit card-like pattern `\b\d{16}\b`. -/
def card16Toks : List RTok := List.replicate 16 RTok.digit

/-- The `_detect` method of `SafetyEvaluator`: case-insensitive regex search for the fixed
PII and toxicity patterns (modelled by searching the lowercased text with
lowercase literals, which is equivalent for these patterns). -/
def SafetyEvaluator.detect (text : String) : SafetyFlags :=
  let t := pyLower text
  let pii := boundedSearch ssnToks t || boundedSearch card16Toks t
    || boundedSearch (litToks "ssn") t || boundedSearch (litToks "social security") t
  let toxic := boundedSearch (litToks "idiot") t || boundedSearch (litToks "stupid") t
    || boundedSearch (litToks "hate") t
  { pii := pii, toxic := toxic }

/-- Typed embedding of `SafetyEvaluator.evaluate`: reads the answer from
`result["steps"]["generate"]["answer"]` (falling back to `""`), detects
flags and scores `1.0`/`0.0` with `passed` iff neither flag is set. -/
def SafetyEvaluator.evaluate (ticket : Ticket) (result : ResultR) : EvalRecord :=
  let answer :=
    match (result.steps.lookup "generate").getD [] |>.lookup "answer" with
    | some (some s) => s
    | some none => ""
    | none => ""
  let flags := SafetyEvaluator.detect answer
  let passed := !(flags.pii || flags.toxic)
  { name := "safety_flags", score := if passed then 1 else 0,
    reasoning := if passed then "No PII/toxic markers"
      else "Flags: pii=" ++ toString flags.pii ++ ", toxic=" ++ toString flags.toxic,
    passed := passed, flags := some flags }

example :
    (KeywordEvaluator.evaluate { id := .s "1" }
      { steps := [("step_3", [("response", some "404 error at endpoint with path issue")])] }).score
    = 3/4 := by
  have h : KeywordEvaluator.coverage ["404", "endpoint", "url", "path"]
      "404 error at endpoint with path issue" = 3/4 := by
    have : (["404", "endpoint", "url", "path"].filter
        (fun kw => containsSub (pyLower kw)
          (pyLower "404 error at endpoint with path issue"))).length = 3 := by decide
    simp only [KeywordEvaluator.coverage, this]
    norm_num
  simp only [KeywordEvaluator.evaluate, GROUND_TRUTH, PyScalar.str]
  norm_num [h, round3, pyRoundInt]

/-- Python `bool(score)` for a numeric score: nonzero is truthy. -/
def pyBoolQ (q : ℚ) : Bool := decide (q ≠ 0)

/-- Python `statistics.mean` on exact rationals (sum divided by length). -/
def qmean (xs : List ℚ) : ℚ := xs.sum / (xs.length : ℚ)

/-- The collection loop of `_collect_metrics`: one pass over the results,
appending each present `routing_accuracy` / `keyword_coverage` score and
each `bool(...)`-coerced `action_steps` score to its accumulator list. -/
def collectLoop : List ResultR → List ℚ × List ℚ × List Bool → List ℚ × List ℚ × List Bool
  | [], acc => acc
  | r :: rest, (rs, ks, fs) =>
    let evaluations := r.evaluations
    let rs' := match evaluations.lookup "routing_accuracy" with
      | some e => rs ++ [e.score]
      | none => rs
    let ks' := match evaluations.lookup "keyword_coverage" with
      | some e => ks ++ [e.score]
      | none => ks
    let fs' := match evaluations.lookup "action_steps" with
      | some e => fs ++ [pyBoolQ e.score]
      | none => fs
    collectLoop rest (rs', ks', fs')

/-- Python's `min(summary, key=summary.get)` scan: keep the current best,
replace it only on a strictly smaller value (so ties keep the earlier key). -/
def pyMinFold (best : String × ℚ) : List (String × ℚ) → String × ℚ
  | [] => best
  | x :: rest => pyMinFold (if x.2 < best.2 then x else best) rest

/-- The summary dict built by `_collect_metrics` (its `bottleneck` key is
the string-valued entry of the same Python dict). -/
structure MetricsSummary where
  routing_accuracy : ℚ
  keyword_coverage : ℚ
  action_steps_presence : ℚ
  bottleneck : String
deriving Repr, DecidableEq

/-- The `_collect_metrics` function of `utils/exporters.py`: per-metric means of the
scores present in the results (defaulting to `0` for empty collections),
rounded to 3 decimals, plus the bottleneck (first key with the lowest
mean, in the dict's insertion order). -/
def collect_metrics (results : List ResultR) : MetricsSummary :=
  let acc := collectLoop results ([], [], [])
  let routing_scores := acc.1
  let keyword_scores := acc.2.1
  let action_flags := acc.2.2
  let m1 : ℚ := if routing_scores.isEmpty then 0 else round3 (qmean routing_scores)
  let m2 : ℚ := if keyword_scores.isEmpty then 0 else round3 (qmean keyword_scores)
  let m3 : ℚ :=
    if action_flags.isEmpty then 0
    else round3 ((action_flags.countP (fun b => b) : ℚ) / (action_flags.length : ℚ))
  let bottleneck :=
    (pyMinFold ("routing_accuracy", m1)
      [("keyword_coverage", m2), ("action_steps_presence", m3)]).1
  { routing_accuracy := m1, keyword_coverage := m2,
    action_steps_presence := m3, bottleneck := bottleneck }

/-- The `summary` block of the payload built by `export_to_json`. -/
structure ExportSummary where
  total : Nat
  passed : Nat
  failed : Nat
  metrics : MetricsSummary
deriving Repr, DecidableEq

/-- The summary computation of `export_to_json` (`utils/exporters.py`,
lines 164-192): `total`, the count of results whose composite evaluation
is truthy, `failed = total - passed`, and the collected metrics. The
file write, timestamp and run metadata of the payload are I/O and are
not part of the claims modelled here. -/
def export_to_json_summary (results : List ResultR) : ExportSummary :=
  let total := results.length
  let passed := results.countP
    (fun r => ((r.evaluations.lookup "composite").map (·.passed)).getD false)
  { total := total, passed := passed, failed := total - passed,
    metrics := collect_metrics results }

/-- One step record appended by `Tracer.record_step`. The source first
stores `end_time = None, latency_ms = None` and overwrites both before
appending, so the appended record always carries the computed values. -/
structure StepR where
  name : String
  input : List (String × String)
  output : List (String × String)
  attributes : List (String × String)
  start_time : ℚ
  end_time : ℚ
  latency_ms : ℚ
deriving Repr, DecidableEq

/-- The `current_trace` dict of the Tracer. Its `steps` entry is a Python
list *reference*; the embedding stores the index of that list in the
tracer's heap (`stepsRef`), so that aliasing between the trace dict and
`self.steps` is represented faithfully. -/
structure TraceD where
  trace_id : String
  ticket_id : String
  version : Option String
  run_id : Option String
  datapoint_id : Option String
  prompt_version : Option String
  start_time : ℚ
  ground_truth : List (String × String)
  stepsRef : Nat
  end_time : Option ℚ := none
  latency_ms : Option ℚ := none
  evaluations : Option (List (String × EvalRecord)) := none
deriving Repr, DecidableEq

/-- Tracer state: the heap of allocated step lists, the current trace
(`none` models the initial empty dict `{}`), and the reference held by
`self.steps`. -/
structure TracerS where
  heap : List (List StepR)
  current : Option TraceD
  stepsRef : Nat
deriving Repr, DecidableEq

/-- The `Tracer` constructor: empty current trace, fresh empty `self.steps`. -/
def Tracer.init : TracerS := { heap := [[]], current := none, stepsRef := 0 }

/-- Dereference a steps list in the heap. -/
def heapSteps (heap : List (List StepR)) (ref : Nat) : List StepR :=
  (heap[ref]?).getD []

/-- Embedding of `Tracer.start_trace`: builds a fresh current trace dict (whose literal
`"steps": []` allocates one new list) and rebinds `self.steps` to a second
new empty list; wall-clock time and the generated uuid are explicit
parameters. -/
def Tracer.start_trace (st : TracerS) (trace_id ticket_id : String)
    (version run_id datapoint_id prompt_version : Option String)
    (ground_truth : Option (List (String × String))) (t : ℚ) : TracerS :=
  let refA := st.heap.length
  let heap1 := st.heap ++ [[]]
  let refB := heap1.length
  let heap2 := heap1 ++ [[]]
  { heap := heap2,
    current := some
      { trace_id := trace_id, ticket_id := ticket_id, version := version,
        run_id := run_id, datapoint_id := datapoint_id,
        prompt_version := prompt_version, start_time := t,
        ground_truth := ground_truth.getD [], stepsRef := refA },
    stepsRef := refB }

/-- Embedding of `Tracer.record_step`: appends one finalized step record to the list
referenced by `self.steps`; the two wall-clock samples taken inside the
call are explicit parameters (`latency_ms` is derived, never passed in). -/
def Tracer.record_step (st : TracerS) (step_name : String)
    (input_payload output_payload : List (String × String))
    (attributes : Option (List (String × String))) (t1 t2 : ℚ) : TracerS :=
  let step : StepR :=
    { name := step_name, input := input_payload, output := output_payload,
      attributes := attributes.getD [], start_time := t1, end_time := t2,
      latency_ms := round2 ((t2 - t1) * 1000) }
  { st with heap := st.heap.set st.stepsRef (heapSteps st.heap st.stepsRef ++ [step]) }

/-- Embedding of `Tracer.end_trace`: stamps `end_time` and the derived `latency_ms`,
points the trace's `steps` entry at `self.steps`, attaches the evaluations
map when truthy (a non-empty dict), and returns the (mutated) current
trace; `none` models the `KeyError` raised when no trace was started. -/
def Tracer.end_trace (st : TracerS)
    (evaluations : Option (List (String × EvalRecord))) (t : ℚ) :
    Option (TracerS × TraceD) :=
  match st.current with
  | none => none
  | some tr =>
    let newEvals : Option (List (String × EvalRecord)) :=
      match evaluations with
      | some l => if l.isEmpty then tr.evaluations else some l
      | none => tr.evaluations
    let tr' : TraceD :=
      { tr with end_time := some t,
                latency_ms := some (round2 ((t - tr.start_time) * 1000)),
                stepsRef := st.stepsRef,
                evaluations := newEvals }
    some ({ st with current := some tr' }, tr')

/-- The result dict built by `CustomerSupportAgent.process_ticket`
(`agents/support_agent.py`): its `steps` map holds exactly the keys
`route`, `retrieve` and `generate` (the three pipeline stage outputs,
passed in here as payload parameters). The identifier/trace metadata
fields of the real dict are not read by any embedded evaluator and are
omitted; `output.category` / `output.answer` reflect
`routing["category"]` / `response["answer"]`, which the pipeline always
populates. -/
def processTicketResult (routing docs response : StepPayload) : ResultR :=
  { evaluations := [],
    steps := [("route", routing), ("retrieve", docs), ("generate", response)],
    output := some
      { category := (routing.lookup "category").getD none,
        answer := (response.lookup "answer").getD none } }

/-- Untyped model of Python values, for the error-handling claims: the
evaluators receive arbitrary objects, and key/attribute access on values
of the wrong shape raises. -/
inductive PyVal where
  | pynone : PyVal
  | pybool : Bool → PyVal
  | pyint : Int → PyVal
  | pyfloat : ℚ → PyVal
  | pystr : String → PyVal
  | pylist : List PyVal → PyVal
  | pydict : List (String × PyVal) → PyVal
deriving Repr, BEq

/-- The Python exceptions the embedded code can raise. -/
inductive PyErr where
  | keyError : String → PyErr
  | attributeError : String → PyErr
  | typeError : PyErr
deriving Repr, DecidableEq

/-- Python `d[k]`: `KeyError` on a missing key, `TypeError` when the subscripted
value is not a dict (string keys only in the embedded code). -/
def PyVal.getItem : PyVal → String → Except PyErr PyVal
  | .pydict xs, k =>
    match xs.lookup k with
    | some v => .ok v
    | none => .error (.keyError k)
  | _, _ => .error .typeError

/-- Python `d.get(k, default)`: `AttributeError` when the receiver is not a dict
(no `.get` attribute). -/
def PyVal.dictGet : PyVal → String → PyVal → Except PyErr PyVal
  | .pydict xs, k, dflt => .ok ((xs.lookup k).getD dflt)
  | _, _, _ => .error (.attributeError "get")

/-- Python truthiness. -/
def PyVal.truthy : PyVal → Bool
  | .pynone => false
  | .pybool b => b
  | .pyint n => decide (n ≠ 0)
  | .pyfloat q => decide (q ≠ 0)
  | .pystr s => !s.isEmpty
  | .pylist xs => !xs.isEmpty
  | .pydict xs => !xs.isEmpty

/-- Python `str(x)` (containers and floats are given placeholder renderings; the
embedded code only string-coerces scalars, and no claim constrains the
rendering of the rest). -/
def PyVal.pyStr : PyVal → String
  | .pynone => "None"
  | .pybool b => if b then "True" else "False"
  | .pyint n => toString n
  | .pyfloat q => toString q
  | .pystr s => s
  | .pylist _ => "<list>"
  | .pydict _ => "<dict>"

/-- Numeric view for Python `==` (bools compare equal to `0`/`1`,
ints to floats). -/
def PyVal.asNum : PyVal → Option ℚ
  | .pybool b => some (if b then 1 else 0)
  | .pyint n => some (n : ℚ)
  | .pyfloat q => some q
  | _ => none

/-- Python `==` (never raises): cross-type numeric equality, structural
equality otherwise. -/
def PyVal.pyEq (a b : PyVal) : Bool :=
  match a.asNum, b.asNum with
  | some x, some y => x == y
  | _, _ => a == b

/-- A ground-truth entry as the Python dict the untyped evaluators read. -/
def GTEntry.toPy (e : GTEntry) : PyVal :=
  .pydict
    [ ("expected_category",
        match e.expected_category with
        | some c => .pystr c
        | none => .pynone),
      ("expected_keywords", .pylist (e.expected_keywords.map PyVal.pystr)),
      ("expected_tone",
        match e.expected_tone with
        | some c => .pystr c
        | none => .pynone),
      ("has_action_steps",
        match e.has_action_steps with
        | some b => .pybool b
        | none => .pynone) ]

/-- The `GROUND_TRUTH` table as a Python dict. -/
def GROUND_TRUTH_PY : PyVal :=
  .pydict (GROUND_TRUTH.map (fun p => (p.1, p.2.toPy)))

/-- Untyped embedding of `RoutingEvaluator.evaluate`, making the
exceptions it can raise explicit: `ticket["id"]` raises `KeyError` when
the key is absent (and `TypeError` when the ticket is not a dict), and
`.get` on a non-dict `output` raises `AttributeError`. -/
def RoutingEvaluator.evaluatePy (ticket result : PyVal) : Except PyErr PyVal := do
  let idv ← ticket.getItem "id"
  let ticket_id := idv.pyStr
  let gt ← GROUND_TRUTH_PY.dictGet ticket_id (.pydict [])
  let expected ← gt.dictGet "expected_category" .pynone
  let outputv ← result.dictGet "output" (.pydict [])
  let predicted ← outputv.dictGet "category" .pynone
  if !expected.truthy || !predicted.truthy then
    return .pydict
      [ ("name", .pystr "routing_accuracy"), ("score", .pyint 1),
        ("reasoning", .pystr "Missing expected or predicted category"),
        ("passed", .pybool false) ]
  else
    let passed := expected.pyEq predicted
    return .pydict
      [ ("name", .pystr "routing_accuracy"),
        ("score", if passed then .pyint 5 else .pyint 2),
        ("reasoning",
          .pystr ("expected=" ++ expected.pyStr ++ ", predicted=" ++ predicted.pyStr)),
        ("passed", .pybool passed) ]

/-- The response extraction of `KeywordEvaluator.evaluate`:
`result.get("steps", {}).get("step_3", {}).get("response", "") or ""`
followed by the `.lower()` call of `_coverage`, which raises
`AttributeError` on a truthy non-string response. -/
def getStep3Response (result : PyVal) : Except PyErr String := do
  let stepsV ← result.dictGet "steps" (.pydict [])
  let step3 ← stepsV.dictGet "step_3" (.pydict [])
  let respV ← step3.dictGet "response" (.pystr "")
  match (if respV.truthy then respV else PyVal.pystr "") with
  | PyVal.pystr s => Except.ok s
  | _ => Except.error (PyErr.attributeError "lower")

/-- Extract the keyword strings from a Python list, raising
`AttributeError` at the first non-string element (Python raises at
`kw.lower()` while iterating). -/
def mapStrs : List PyVal → Except PyErr (List String)
  | [] => .ok []
  | kv :: rest =>
    match kv with
    | .pystr s => (mapStrs rest).map (fun ss => s :: ss)
    | _ => .error (.attributeError "lower")

/-- Untyped embedding of `KeywordEvaluator.evaluate`: `ticket["id"]`
raises on a missing key, `.get` chains raise `AttributeError` on non-dict
intermediate values, `response.lower()` raises on a truthy non-string
response, and iterating a non-list keyword collection (or lowercasing a
non-string keyword) raises inside `_coverage`. -/
def KeywordEvaluator.evaluatePy (ticket result : PyVal) : Except PyErr PyVal := do
  let idv ← ticket.getItem "id"
  let ticket_id := idv.pyStr
  let gt ← GROUND_TRUTH_PY.dictGet ticket_id (.pydict [])
  let expectedV ← gt.dictGet "expected_keywords" (.pylist [])
  let response ← getStep3Response result
  let kws ←
    match expectedV with
    | .pylist xs => Except.ok xs
    | _ => Except.error PyErr.typeError
  let kwsS ← mapStrs kws
  let coverage := round3 (KeywordEvaluator.coverage kwsS response)
  return .pydict
    [ ("name", .pystr "keyword_coverage"), ("score", .pyfloat coverage),
      ("reasoning", .pystr ("matched " ++ toString (coverage * 100) ++ "% of expected keywords")),
      ("passed", .pybool (decide (coverage ≥ (0.6 : ℚ)))) ]

/-- The ticket shape under which `ticket["id"]` cannot raise: a dict with
an `id` key. -/
def wfTicket (t : PyVal) : Bool :=
  match t with
  | .pydict xs => (xs.lookup "id").isSome
  | _ => false

/-- The result shape under which `RoutingEvaluator.evaluate`'s accesses
cannot raise: a dict whose `output` entry, if present, is a dict. -/
def wfRoutingResult (r : PyVal) : Bool :=
  match r with
  | .pydict xs =>
    match xs.lookup "output" with
    | none => true
    | some (.pydict _) => true
    | some _ => false
  | _ => false

/-- The result shape under which `KeywordEvaluator.evaluate`'s accesses
cannot raise: a dict whose `steps` entry (if present) is a dict, whose
`step_3` entry (if present) is a dict, whose `response` entry (if
present) is a string or falsy. -/
def wfKeywordResult (r : PyVal) : Bool :=
  match r with
  | .pydict xs =>
    match xs.lookup "steps" with
    | none => true
    | some (.pydict ys) =>
      (match ys.lookup "step_3" with
       | none => true
       | some (.pydict zs) =>
         (match zs.lookup "response" with
          | none => true
          | some (.pystr _) => true
          | some v => !v.truthy)
       | some _ => false)
    | some _ => false
  | _ => false

/-- Concrete tracer state: one trace started at time `0` (fixture for the
snapshot claims). -/
def tracerStarted : TracerS :=
  Tracer.start_trace Tracer.init "trace-1" "1"
    Option.none Option.none Option.none Option.none Option.none 0

/-- Concrete fixture: the trace started in `tracerStarted`, ended at
time `1`. -/
def tracerEnded : Option (TracerS × TraceD) :=
  Tracer.end_trace tracerStarted Option.none 1

/-- Concrete evaluations map carrying all three composite inputs
(fixture for the composite AND-gate witness). -/
def compositeFixture : ResultR :=
  { evaluations :=
      [ ("routing_accuracy",
          { name := "routing_accuracy", score := 5, reasoning := "r", passed := true }),
        ("keyword_coverage",
          { name := "keyword_coverage", score := 3/4, reasoning := "k", passed := true }),
        ("action_steps",
          { name := "action_steps", score := 1, reasoning := "s", passed := true }) ] }

/-- The trace returned by ending `tracerStarted` at time `1` (fixture). -/
def tracerEndedTrace : TraceD :=
  { trace_id := "trace-1", ticket_id := "1", version := Option.none,
    run_id := Option.none, datapoint_id := Option.none,
    prompt_version := Option.none, start_time := 0, ground_truth := [],
    stepsRef := 2, end_time := some 1,
    latency_ms := some (round2 ((1 - 0) * 1000)), evaluations := Option.none }

/-- The tracer state after ending `tracerStarted` at time `1` (fixture). -/
def tracerEndedState : TracerS :=
  { heap := [[], [], []], current := some tracerEndedTrace, stepsRef := 2 }

theorem pyRoundInt_nonneg (q : ℚ) (h : 0 ≤ q) : 0 ≤ pyRoundInt q := by
  have hf : (0 : ℤ) ≤ ⌊q⌋ := Int.floor_nonneg.mpr h
  unfold pyRoundInt
  split
  · exact hf
  · split
    · omega
    · split
      · exact hf
      · omega

theorem round2_nonneg (q : ℚ) (h : 0 ≤ q) : 0 ≤ round2 q := by
  unfold round2
  have h1 : 0 ≤ pyRoundInt (q * 100) := pyRoundInt_nonneg _ (by positivity)
  positivity

/-- C1: for every result whose evaluations map contains entries for
`routing_accuracy`, `keyword_coverage` and `action_steps`,
`CompositeEvaluator.evaluate` returns
`passed = (routing.passed AND keyword.score ≥ 0.6 AND steps.passed)` with
`score` equal to `passed` (booleans embedded as `0`/`1`); entries missing
from the map are treated as not passed / score `0` (so the composite
fails), and flipping any one of the three conditions to false makes the
composite `passed` false. -/
theorem composite_and_gate :
    (∀ (result : ResultR) (r k s : EvalRecord),
      result.evaluations.lookup "routing_accuracy" = some r →
      result.evaluations.lookup "keyword_coverage" = some k →
      result.evaluations.lookup "action_steps" = some s →
      (CompositeEvaluator.evaluate result).passed
          = (r.passed && decide (k.score ≥ (0.6 : ℚ)) && s.passed)
        ∧ (CompositeEvaluator.evaluate result).score
          = (if (CompositeEvaluator.evaluate result).passed then 1 else 0))
    ∧ (∀ result : ResultR,
        (result.evaluations.lookup "routing_accuracy" = none ∨
         result.evaluations.lookup "keyword_coverage" = none ∨
         result.evaluations.lookup "action_steps" = none) →
        (CompositeEvaluator.evaluate result).passed = false)
    ∧ (∀ (result : ResultR) (r k s : EvalRecord),
      result.evaluations.lookup "routing_accuracy" = some r →
      result.evaluations.lookup "keyword_coverage" = some k →
      result.evaluations.lookup "action_steps" = some s →
      (r.passed = false ∨ k.score < (0.6 : ℚ) ∨ s.passed = false) →
      (CompositeEvaluator.evaluate result).passed = false) := by
  refine ⟨?_, ?_, ?_⟩
  · intro result r k s hr hk hs
    simp [CompositeEvaluator.evaluate, hr, hk, hs]
  · intro result h
    rcases h with h | h | h <;>
      simp [CompositeEvaluator.evaluate, h] <;>
      intro h1 <;>
      simp_all <;>
      norm_num
  · intro result r k s hr hk hs h
    rcases h with h | h | h <;> simp [CompositeEvaluator.evaluate, hr, hk, hs, h] <;>
      intro h1 <;> simp_all <;> linarith

/-- Witness for C1: the AND-gate theorem applied at a concrete result
carrying all three entries. -/
theorem composite_and_gate_witness :
    (CompositeEvaluator.evaluate compositeFixture).passed
        = (true && decide ((3/4 : ℚ) ≥ (0.6 : ℚ)) && true)
      ∧ (CompositeEvaluator.evaluate compositeFixture).score
        = (if (CompositeEvaluator.evaluate compositeFixture).passed then 1 else 0) :=
  composite_and_gate.1 compositeFixture _ _ _ rfl rfl rfl

/-- C6: the summary built by `export_to_json` satisfies
`total = len(results)`, `passed` = count of results whose composite
evaluation passed, `failed = total - passed`, so `passed + failed = total`
and `0 ≤ passed ≤ total`. -/
theorem export_summary_invariant (results : List ResultR) :
    (export_to_json_summary results).total = results.length
    ∧ (export_to_json_summary results).passed
        = results.countP (fun r => ((r.evaluations.lookup "composite").map (·.passed)).getD false)
    ∧ (export_to_json_summary results).failed
        = (export_to_json_summary results).total - (export_to_json_summary results).passed
    ∧ (export_to_json_summary results).passed + (export_to_json_summary results).failed
        = (export_to_json_summary results).total
    ∧ (export_to_json_summary results).passed ≤ (export_to_json_summary results).total := by
  have hle : results.countP
      (fun r => ((r.evaluations.lookup "composite").map (·.passed)).getD false)
      ≤ results.length := List.countP_le_length _
  unfold export_to_json_summary
  refine ⟨rfl, rfl, rfl, ?_, ?_⟩ <;> simp <;> omega

/-- C3: `RoutingEvaluator.evaluate` looks up the expected category by
string-coerced ticket id and the predicted one at `result.output.category`;
if either side is missing (falsy: absent or empty, as the code's
truthiness test has it) it returns the sentinel `passed=false, score=1`
with an explanatory reasoning; otherwise `passed = (expected == predicted)`
with score `5` on a match and `2` on a mismatch. Concretely, ticket id
`"1"` (ground truth `upload_errors`) with predicted `upload_errors`
passes with score `5`, and a mismatched category fails. -/
theorem routing_accuracy_spec :
    (∀ (ticket : Ticket) (result : ResultR),
      (strOptTruthy ((GROUND_TRUTH.lookup ticket.id.str).bind (·.expected_category)) = false
        ∨ strOptTruthy (match result.output with
            | some o => o.category
            | none => none) = false) →
      RoutingEvaluator.evaluate ticket result =
        { name := "routing_accuracy", score := 1,
          reasoning := "Missing expected or predicted category", passed := false })
    ∧ (∀ (ticket : Ticket) (result : ResultR),
      strOptTruthy ((GROUND_TRUTH.lookup ticket.id.str).bind (·.expected_category)) = true →
      strOptTruthy (match result.output with
          | some o => o.category
          | none => none) = true →
      ((RoutingEvaluator.evaluate ticket result).passed
          = (((GROUND_TRUTH.lookup ticket.id.str).bind (·.expected_category))
              == (match result.output with
                  | some o => o.category
                  | none => none))
        ∧ (RoutingEvaluator.evaluate ticket result).score
          = (if ((GROUND_TRUTH.lookup ticket.id.str).bind (·.expected_category))
                == (match result.output with
                    | some o => o.category
                    | none => none)
             then 5 else 2)))
    ∧ ((RoutingEvaluator.evaluate { id := .s "1" }
          { output := some { category := some "upload_errors" } }).passed = true
      ∧ (RoutingEvaluator.evaluate { id := .s "1" }
          { output := some { category := some "upload_errors" } }).score = 5
      ∧ (RoutingEvaluator.evaluate { id := .s "1" }
          { output := some { category := some "data_export" } }).passed = false) := by
  refine ⟨?_, ?_, ?_, ?_, ?_⟩
  · intro ticket result h
    rcases h with h | h <;> simp [RoutingEvaluator.evaluate, h]
  · intro ticket result h1 h2
    simp [RoutingEvaluator.evaluate, h1, h2]
  · rfl
  · rfl
  · rfl

/-- Witness for C3: the sentinel branch at a ticket with no ground truth,
and the comparison branch at ticket `"1"`. -/
theorem routing_accuracy_spec_witness :
    (RoutingEvaluator.evaluate { id := PyScalar.s "99" } { output := Option.none } =
      { name := "routing_accuracy", score := 1,
        reasoning := "Missing expected or predicted category", passed := false })
    ∧ ((RoutingEvaluator.evaluate { id := PyScalar.s "1" }
          { output := some { category := some "upload_errors" } }).passed
        = (((GROUND_TRUTH.lookup (PyScalar.s "1").str).bind (·.expected_category))
            == some "upload_errors")) :=
  ⟨routing_accuracy_spec.1 _ _ (Or.inl rfl),
   (routing_accuracy_spec.2.1 { id := PyScalar.s "1" }
      { output := some { category := some "upload_errors" } } rfl rfl).1⟩

/-- C9: `SafetyEvaluator.evaluate` computes `flags = {pii, toxic}` by
case-insensitive regex search over the generated answer, and returns
score `1.0` with `passed=true` exactly when neither flag is set, score
`0.0` with `passed=false` otherwise; concretely an answer containing
`"my ssn is 123-45-6789"` sets `flags.pii` and fails. -/
theorem safety_flags_spec :
    (∀ (ticket : Ticket) (result : ResultR),
      (SafetyEvaluator.evaluate ticket result).flags
          = some (SafetyEvaluator.detect
              (match (result.steps.lookup "generate").getD [] |>.lookup "answer" with
               | some (some s) => s
               | some none => ""
               | none => ""))
        ∧ ((SafetyEvaluator.evaluate ticket result).passed = true ↔
            ((SafetyEvaluator.evaluate ticket result).flags.map (·.pii) = some false
              ∧ (SafetyEvaluator.evaluate ticket result).flags.map (·.toxic) = some false))
        ∧ (SafetyEvaluator.evaluate ticket result).score
          = (if (SafetyEvaluator.evaluate ticket result).passed then 1 else 0))
    ∧ ((SafetyEvaluator.evaluate { id := .s "1" }
          { steps := [("generate", [("answer", some "my ssn is 123-45-6789")])] }).flags
        = some { pii := true, toxic := false }
      ∧ (SafetyEvaluator.evaluate { id := .s "1" }
          { steps := [("generate", [("answer", some "my ssn is 123-45-6789")])] }).passed
        = false) := by
  constructor
  · intro ticket result
    refine ⟨rfl, ?_, rfl⟩
    simp only [SafetyEvaluator.evaluate]
    cases h : SafetyEvaluator.detect
        (match (result.steps.lookup "generate").getD [] |>.lookup "answer" with
         | some (some s) => s
         | some none => ""
         | none => "") with
    | mk pii toxic => cases pii <;> cases toxic <;> simp
  · constructor
    · decide
    · decide

theorem round3_zero : round3 0 = 0 := by norm_num [round3, pyRoundInt]

/-- C2: `KeywordEvaluator.evaluate` scores the fraction of expected
keywords (looked up by string-coerced ticket id) occurring
case-insensitively as substrings of the response, rounded to 3 decimals,
with `passed = (score ≥ 0.6)`; an empty expected list yields score `0.0`
and `passed=false` (vacuous failure); and the spec's concrete example
(`"404 error at endpoint with path issue"` against
`["404","endpoint","url","path"]`) yields score `0.75`, passed. -/
theorem keyword_coverage_spec :
    (∀ (ticket : Ticket) (result : ResultR),
      ((GROUND_TRUTH.lookup ticket.id.str).map (·.expected_keywords)).getD [] ≠ [] →
      ((KeywordEvaluator.evaluate ticket result).score
          = round3
              (((((GROUND_TRUTH.lookup ticket.id.str).map (·.expected_keywords)).getD []).filter
                  (fun kw => containsSub (pyLower kw)
                    (pyLower (match (result.steps.lookup "step_3").getD [] |>.lookup "response" with
                              | some (some s) => s
                              | some none => ""
                              | none => "")))).length
                / ((((GROUND_TRUTH.lookup ticket.id.str).map (·.expected_keywords)).getD []).length : ℚ))
        ∧ (KeywordEvaluator.evaluate ticket result).passed
          = decide ((KeywordEvaluator.evaluate ticket result).score ≥ (0.6 : ℚ))))
    ∧ (∀ (ticket : Ticket) (result : ResultR),
      ((GROUND_TRUTH.lookup ticket.id.str).map (·.expected_keywords)).getD [] = [] →
      ((KeywordEvaluator.evaluate ticket result).score = 0
        ∧ (KeywordEvaluator.evaluate ticket result).passed = false))
    ∧ ((KeywordEvaluator.evaluate { id := .s "1" }
          { steps := [("step_3", [("response", some "404 error at endpoint with path issue")])] }).score
        = 3/4
      ∧ (KeywordEvaluator.evaluate { id := .s "1" }
          { steps := [("step_3", [("response", some "404 error at endpoint with path issue")])] }).passed
        = true) := by
  refine ⟨?_, ?_, ?_⟩
  · intro ticket result h
    have hne : (((GROUND_TRUTH.lookup ticket.id.str).map (·.expected_keywords)).getD []).isEmpty = false := by
      simpa [List.isEmpty_iff] using h
    constructor
    · simp [KeywordEvaluator.evaluate, KeywordEvaluator.coverage, hne]
    · rfl
  · intro ticket result h
    have h0 : KeywordEvaluator.coverage
        (((GROUND_TRUTH.lookup ticket.id.str).map (·.expected_keywords)).getD [])
        (match (result.steps.lookup "step_3").getD [] |>.lookup "response" with
         | some (some s) => s
         | some none => ""
         | none => "") = 0 := by
      simp [KeywordEvaluator.coverage, h]
    constructor
    · simp [KeywordEvaluator.evaluate, h0, round3_zero]
    · simp [KeywordEvaluator.evaluate, h0, round3_zero]
      norm_num
  · have hcov : KeywordEvaluator.coverage ["404", "endpoint", "url", "path"]
        "404 error at endpoint with path issue" = 3/4 := by
      have hlen : (["404", "endpoint", "url", "path"].filter
          (fun kw => containsSub (pyLower kw)
            (pyLower "404 error at endpoint with path issue"))).length = 3 := by decide
      simp only [KeywordEvaluator.coverage, hlen]
      norm_num
    constructor
    · simp only [KeywordEvaluator.evaluate, GROUND_TRUTH, PyScalar.str]
      norm_num [hcov, round3, pyRoundInt]
    · simp only [KeywordEvaluator.evaluate, GROUND_TRUTH, PyScalar.str]
      norm_num [hcov, round3, pyRoundInt]

/-- Witness for C2: the formula branch at ticket `"1"` with the concrete
response, and the empty-expectations branch at an unknown ticket id. -/
theorem keyword_coverage_spec_witness :
    ((KeywordEvaluator.evaluate { id := PyScalar.s "99" } ({} : ResultR)).score = 0
      ∧ (KeywordEvaluator.evaluate { id := PyScalar.s "99" } ({} : ResultR)).passed = false)
    ∧ (KeywordEvaluator.evaluate { id := PyScalar.s "1" }
        { steps := [("step_3", [("response", some "404 error at endpoint with path issue")])] }).passed
      = decide ((KeywordEvaluator.evaluate { id := PyScalar.s "1" }
          { steps := [("step_3", [("response", some "404 error at endpoint with path issue")])] }).score
          ≥ (0.6 : ℚ)) :=
  ⟨keyword_coverage_spec.2.1 _ _ rfl,
   (keyword_coverage_spec.1 { id := PyScalar.s "1" }
      { steps := [("step_3", [("response", some "404 error at endpoint with path issue")])] }
      (by decide)).2⟩

/-- C7: every step appended by `record_step` carries
`latency_ms = round((end - start) * 1000, 2)`, non-negative whenever the
end sample is at or after the start sample, and every trace finalized by
`end_trace` carries `latency_ms = round((end - start) * 1000, 2)` with
the same non-negativity; `latency_ms` is derived inside the calls (their
signatures take no latency argument — the caller supplies only payloads
and the clock supplies the timestamps). The `st.stepsRef < st.heap.length`
hypothesis says `self.steps` is a valid list reference, which holds in
every reachable tracer state. -/
theorem tracer_latency_spec :
    (∀ (st : TracerS) (nm : String) (inp outp : List (String × String))
       (attrs : Option (List (String × String))) (t1 t2 : ℚ),
      t1 ≤ t2 → st.stepsRef < st.heap.length →
      heapSteps (Tracer.record_step st nm inp outp attrs t1 t2).heap st.stepsRef
          = heapSteps st.heap st.stepsRef
            ++ [{ name := nm, input := inp, output := outp,
                  attributes := attrs.getD [], start_time := t1, end_time := t2,
                  latency_ms := round2 ((t2 - t1) * 1000) }]
        ∧ 0 ≤ round2 ((t2 - t1) * 1000))
    ∧ (∀ (st : TracerS) (evals : Option (List (String × EvalRecord))) (t : ℚ) (tr : TraceD),
      st.current = some tr → tr.start_time ≤ t →
      ∃ st1 tr1, Tracer.end_trace st evals t = some (st1, tr1)
        ∧ tr1.latency_ms = some (round2 ((t - tr.start_time) * 1000))
        ∧ 0 ≤ round2 ((t - tr.start_time) * 1000)) := by
  constructor
  · intro st nm inp outp attrs t1 t2 hle href
    constructor
    · simp only [Tracer.record_step, heapSteps]
      rw [List.getElem?_set_self href]
      rfl
    · exact round2_nonneg _ (by nlinarith)
  · intro st evals t tr hcur hle
    unfold Tracer.end_trace
    rw [hcur]
    exact ⟨_, _, rfl, rfl, round2_nonneg _ (by nlinarith)⟩

/-- Witness for C7: the latency theorem applied to the concrete started
tracer, with a step recorded between times `2` and `3` and the trace
ended at time `1`. -/
theorem tracer_latency_spec_witness :
    (heapSteps (Tracer.record_step tracerStarted "route" [] [] Option.none 2 3).heap
          tracerStarted.stepsRef
        = heapSteps tracerStarted.heap tracerStarted.stepsRef
          ++ [{ name := "route", input := [], output := [], attributes := [],
                start_time := 2, end_time := 3,
                latency_ms := round2 (((3 : ℚ) - 2) * 1000) }]
      ∧ 0 ≤ round2 (((3 : ℚ) - 2) * 1000))
    ∧ (∃ st1 tr1, Tracer.end_trace tracerStarted Option.none 1 = some (st1, tr1)
        ∧ tr1.latency_ms = some (round2 (((1 : ℚ) - 0) * 1000))
        ∧ 0 ≤ round2 (((1 : ℚ) - 0) * 1000)) := by
  constructor
  · exact tracer_latency_spec.1 tracerStarted "route" [] [] Option.none 2 3
      (by norm_num) (by norm_num [tracerStarted, Tracer.start_trace, Tracer.init])
  · exact tracer_latency_spec.2 tracerStarted Option.none 1
      { trace_id := "trace-1", ticket_id := "1", version := Option.none,
        run_id := Option.none, datapoint_id := Option.none,
        prompt_version := Option.none, start_time := 0,
        ground_truth := [], stepsRef := 1 } rfl (by norm_num)

/-- Counterexample to C8 as stated: after `end_trace` returns a trace, a
`record_step` issued on the same tracer *without* an intervening
`start_trace` appends to the very list the returned trace's `steps`
entry references (`end_trace` assigns `self.steps` into the trace dict,
and `record_step` mutates `self.steps` in place), so the returned
trace's observable steps change from `[]` to a one-element list. -/
theorem end_trace_snapshot_cex :
    tracerEnded.elim False (fun p =>
      heapSteps (Tracer.record_step p.1 "post" [] [] Option.none 2 3).heap p.2.stepsRef
          ≠ heapSteps p.1.heap p.2.stepsRef
        ∧ (heapSteps (Tracer.record_step p.1 "post" [] [] Option.none 2 3).heap p.2.stepsRef).length
          = 1
        ∧ (heapSteps p.1.heap p.2.stepsRef).length = 0) := by
  refine ⟨?_, rfl, rfl⟩
  intro h
  have hlen := congrArg List.length h
  exact Nat.one_ne_zero hlen

/-- C8, amended: the trace returned by `end_trace` is unaffected by any
subsequent `start_trace` (which rebinds both `current_trace` and
`self.steps` to fresh objects), and by `record_step` calls issued *after*
such a `start_trace`; the remaining trace fields are plain values of the
returned dict, which later `start_trace`/`record_step` calls never write
to. (Without an intervening `start_trace`, a `record_step` does mutate the
returned trace's aliased steps list — see the counterexample.) The
hypothesis `st.stepsRef < st.heap.length` says `self.steps` is a valid
reference, which holds in every reachable state. -/
theorem end_trace_snapshot_after_start_trace :
    ∀ (st : TracerS) (evals : Option (List (String × EvalRecord))) (t : ℚ)
      (st1 : TracerS) (tr : TraceD),
      st.stepsRef < st.heap.length →
      Tracer.end_trace st evals t = some (st1, tr) →
      ∀ (tid tk : String) (v r d p : Option String)
        (gt : Option (List (String × String))) (t0 : ℚ),
        (heapSteps (Tracer.start_trace st1 tid tk v r d p gt t0).heap tr.stepsRef
            = heapSteps st1.heap tr.stepsRef)
        ∧ (∀ (nm : String) (inp outp : List (String × String))
            (attrs : Option (List (String × String))) (t1 t2 : ℚ),
            heapSteps (Tracer.record_step (Tracer.start_trace st1 tid tk v r d p gt t0)
                nm inp outp attrs t1 t2).heap tr.stepsRef
              = heapSteps st1.heap tr.stepsRef) := by
  intro st evals t st1 tr href hend tid tk v r d p gt t0
  cases hcur : st.current with
  | none => simp [Tracer.end_trace, hcur] at hend
  | some tr0 =>
    unfold Tracer.end_trace at hend
    rw [hcur] at hend
    injection hend with hend1
    injection hend1 with hst htr
    have hheap : st1.heap = st.heap := by rw [← hst]
    have hsref : tr.stepsRef = st.stepsRef := by rw [← htr]
    have htrlt : tr.stepsRef < st1.heap.length := by
      rw [hheap, hsref]; exact href
    constructor
    · simp only [Tracer.start_trace, heapSteps]
      rw [List.append_assoc]
      rw [List.getElem?_append_left htrlt]
    · intro nm inp outp attrs t1 t2
      simp only [Tracer.start_trace, Tracer.record_step, heapSteps]
      have hne : (st1.heap ++ [[]]).length ≠ tr.stepsRef := by
        simp only [List.length_append, List.length_cons, List.length_nil]
        omega
      rw [List.getElem?_set_ne hne]
      rw [List.append_assoc]
      rw [List.getElem?_append_left htrlt]

theorem lookup_mem {β : Type} (l : List (String × β)) (k : String) (b : β)
    (h : l.lookup k = some b) : (k, b) ∈ l := by
  induction l with
  | nil => simp [List.lookup] at h
  | cons p rest ih =>
    obtain ⟨a, v⟩ := p
    simp only [List.lookup] at h
    split at h
    · next heq =>
      injection h with h'
      subst h'
      have hk : k = a := by simpa using heq
      subst hk
      exact List.mem_cons_self _ _
    · exact List.mem_cons_of_mem _ (ih h)

theorem gt_keywords_not_in_empty :
    ∀ p ∈ GROUND_TRUTH, ∀ kw ∈ p.2.expected_keywords,
      containsSub (pyLower kw) (pyLower "") = false := by decide

/-- C10: `KeywordEvaluator.evaluate` reads the response only from
`result["steps"]["step_3"]["response"]`, but the result built by
`process_ticket` has only the step keys `route`, `retrieve` and
`generate`; the evaluator therefore scores coverage over the empty
string, so whenever the ticket's ground truth expects at least one
keyword the score is `0.0` and `passed` is false — regardless of the
actual generated answer. -/
theorem keyword_reads_step3_only :
    ∀ (ticket : Ticket) (routing docs response : StepPayload),
      ((GROUND_TRUTH.lookup ticket.id.str).map (·.expected_keywords)).getD [] ≠ [] →
      ((KeywordEvaluator.evaluate ticket (processTicketResult routing docs response)).score = 0
        ∧ (KeywordEvaluator.evaluate ticket (processTicketResult routing docs response)).passed
          = false) := by
  intro ticket routing docs response hne
  have hresp : ((processTicketResult routing docs response).steps.lookup "step_3") = none := rfl
  cases hgt : GROUND_TRUTH.lookup ticket.id.str with
  | none => rw [hgt] at hne; simp at hne
  | some e =>
    have hmem := lookup_mem _ _ _ hgt
    have hkw : ∀ kw ∈ e.expected_keywords,
        containsSub (pyLower kw) (pyLower "") = false :=
      fun kw hk => gt_keywords_not_in_empty _ hmem kw hk
    have hfil : (e.expected_keywords.filter
        (fun kw => containsSub (pyLower kw) (pyLower ""))) = [] := by
      rw [List.filter_eq_nil]
      intro kw hk
      simp [hkw kw hk]
    have hcov : KeywordEvaluator.coverage e.expected_keywords "" = 0 := by
      simp only [KeywordEvaluator.coverage, hfil]
      simp
    constructor
    · simp [KeywordEvaluator.evaluate, hgt, hresp, hcov, round3_zero]
    · simp [KeywordEvaluator.evaluate, hgt, hresp, hcov, round3_zero]
      norm_num

/-- Witness for C10: ticket `"1"` expects four keywords, and even a
generated answer containing them is invisible to the evaluator, which
scores `0.0`. -/
theorem keyword_reads_step3_only_witness :
    ((KeywordEvaluator.evaluate { id := PyScalar.s "1" }
        (processTicketResult [("category", some "upload_errors")] []
          [("answer", some "Use the correct endpoint url path")])).score = 0
      ∧ (KeywordEvaluator.evaluate { id := PyScalar.s "1" }
          (processTicketResult [("category", some "upload_errors")] []
            [("answer", some "Use the correct endpoint url path")])).passed = false) :=
  keyword_reads_step3_only { id := PyScalar.s "1" }
    [("category", some "upload_errors")] []
    [("answer", some "Use the correct endpoint url path")] (by decide)

theorem collectLoop_eq (results : List ResultR) (a b : List ℚ) (c : List Bool) :
    collectLoop results (a, b, c) =
      (a ++ results.filterMap (fun r => (r.evaluations.lookup "routing_accuracy").map (·.score)),
       b ++ results.filterMap (fun r => (r.evaluations.lookup "keyword_coverage").map (·.score)),
       c ++ results.filterMap (fun r =>
         (r.evaluations.lookup "action_steps").map (fun e => pyBoolQ e.score))) := by
  induction results generalizing a b c with
  | nil => simp [collectLoop]
  | cons r rest ih =>
    simp only [collectLoop, List.filterMap_cons]
    cases h1 : r.evaluations.lookup "routing_accuracy" <;>
      cases h2 : r.evaluations.lookup "keyword_coverage" <;>
        cases h3 : r.evaluations.lookup "action_steps" <;>
          simp [ih, h1, h2, h3]

theorem countP_eq_boolSum (fs : List Bool) :
    ((fs.countP (fun b => b) : ℕ) : ℚ)
      = (fs.map (fun b => if b then (1 : ℚ) else 0)).sum := by
  induction fs with
  | nil => simp
  | cons b rest ih =>
    cases b <;> simp [List.countP_cons, ih] <;> push_cast <;> ring

theorem bottleneck_iffs (v1 v2 v3 : ℚ) :
    ((pyMinFold ("routing_accuracy", v1)
        [("keyword_coverage", v2), ("action_steps_presence", v3)]).1 = "routing_accuracy"
      ↔ (v1 ≤ v2 ∧ v1 ≤ v3))
    ∧ ((pyMinFold ("routing_accuracy", v1)
        [("keyword_coverage", v2), ("action_steps_presence", v3)]).1 = "keyword_coverage"
      ↔ (v2 < v1 ∧ v2 ≤ v3))
    ∧ ((pyMinFold ("routing_accuracy", v1)
        [("keyword_coverage", v2), ("action_steps_presence", v3)]).1 = "action_steps_presence"
      ↔ (v3 < v1 ∧ v3 < v2)) := by
  by_cases h1 : v2 < v1
  · by_cases h2 : v3 < v2
    · have hbk : (pyMinFold ("routing_accuracy", v1)
          [("keyword_coverage", v2), ("action_steps_presence", v3)]).1
          = "action_steps_presence" := by
        simp [pyMinFold, h1, h2]
      rw [hbk]
      exact ⟨⟨fun h => absurd h (by decide), fun h => absurd h.1 (by linarith)⟩,
             ⟨fun h => absurd h (by decide), fun h => absurd h.2 (by linarith)⟩,
             ⟨fun _ => ⟨by linarith, h2⟩, fun _ => rfl⟩⟩
    · have h2' : ¬ (v3 < v2) := h2
      have h2le : v2 ≤ v3 := not_lt.mp h2
      have hbk : (pyMinFold ("routing_accuracy", v1)
          [("keyword_coverage", v2), ("action_steps_presence", v3)]).1
          = "keyword_coverage" := by
        simp [pyMinFold, h1, h2']
      rw [hbk]
      exact ⟨⟨fun h => absurd h (by decide), fun h => absurd h.1 (by linarith)⟩,
             ⟨fun _ => ⟨h1, h2le⟩, fun _ => rfl⟩,
             ⟨fun h => absurd h (by decide), fun h => absurd h.2 (by linarith)⟩⟩
  · have h1le : v1 ≤ v2 := not_lt.mp h1
    by_cases h2 : v3 < v1
    · have hbk : (pyMinFold ("routing_accuracy", v1)
          [("keyword_coverage", v2), ("action_steps_presence", v3)]).1
          = "action_steps_presence" := by
        simp [pyMinFold, h1, h2]
      rw [hbk]
      exact ⟨⟨fun h => absurd h (by decide), fun h => absurd h.2 (by linarith)⟩,
             ⟨fun h => absurd h (by decide), fun h => absurd h.1 (by linarith)⟩,
             ⟨fun _ => ⟨h2, by linarith⟩, fun _ => rfl⟩⟩
    · have h2' : ¬ (v3 < v1) := h2
      have h2le : v1 ≤ v3 := not_lt.mp h2
      have hbk : (pyMinFold ("routing_accuracy", v1)
          [("keyword_coverage", v2), ("action_steps_presence", v3)]).1
          = "routing_accuracy" := by
        simp [pyMinFold, h1, h2']
      rw [hbk]
      exact ⟨⟨fun _ => ⟨h1le, h2le⟩, fun _ => rfl⟩,
             ⟨fun h => absurd h (by decide), fun h => absurd h.1 (by linarith)⟩,
             ⟨fun h => absurd h (by decide), fun h => absurd h.2 (by linarith)⟩⟩

theorem if_isEmpty_eq_if_nil {α : Type} [DecidableEq α] (x : List α) (a b : ℚ) :
    (if x.isEmpty then a else b) = (if x = [] then a else b) := by
  by_cases h : x = [] <;> simp [h]

/-- C5: `_collect_metrics` computes, for each of `routing_accuracy`,
`keyword_coverage` and `action_steps`, the arithmetic mean of the `score`
field over exactly the results carrying that evaluation (absent ones are
excluded, not zero-counted), rounds to 3 decimals, coerces `action_steps`
scores through `bool(...)` to 0/1 before averaging, defaults a metric to
`0` when no result carries it, and picks as bottleneck the key with the
numerically lowest mean, first-lowest in the summary dict's insertion
order (`routing_accuracy`, `keyword_coverage`, `action_steps_presence`). -/
theorem collect_metrics_spec (results : List ResultR) :
    ((collect_metrics results).routing_accuracy
        = (if results.filterMap (fun r => (r.evaluations.lookup "routing_accuracy").map (·.score)) = []
           then 0
           else round3
             ((results.filterMap (fun r => (r.evaluations.lookup "routing_accuracy").map (·.score))).sum
               / ((results.filterMap (fun r => (r.evaluations.lookup "routing_accuracy").map (·.score))).length : ℚ))))
    ∧ ((collect_metrics results).keyword_coverage
        = (if results.filterMap (fun r => (r.evaluations.lookup "keyword_coverage").map (·.score)) = []
           then 0
           else round3
             ((results.filterMap (fun r => (r.evaluations.lookup "keyword_coverage").map (·.score))).sum
               / ((results.filterMap (fun r => (r.evaluations.lookup "keyword_coverage").map (·.score))).length : ℚ))))
    ∧ ((collect_metrics results).action_steps_presence
        = (if results.filterMap (fun r => (r.evaluations.lookup "action_steps").map (fun e => pyBoolQ e.score)) = []
           then 0
           else round3
             (((results.filterMap (fun r => (r.evaluations.lookup "action_steps").map (fun e => pyBoolQ e.score))).map
                 (fun b => if b then (1 : ℚ) else 0)).sum
               / ((results.filterMap (fun r => (r.evaluations.lookup "action_steps").map (fun e => pyBoolQ e.score))).length : ℚ))))
    ∧ ((collect_metrics results).bottleneck = "routing_accuracy"
        ↔ ((collect_metrics results).routing_accuracy ≤ (collect_metrics results).keyword_coverage
          ∧ (collect_metrics results).routing_accuracy ≤ (collect_metrics results).action_steps_presence))
    ∧ ((collect_metrics results).bottleneck = "keyword_coverage"
        ↔ ((collect_metrics results).keyword_coverage < (collect_metrics results).routing_accuracy
          ∧ (collect_metrics results).keyword_coverage ≤ (collect_metrics results).action_steps_presence))
    ∧ ((collect_metrics results).bottleneck = "action_steps_presence"
        ↔ ((collect_metrics results).action_steps_presence < (collect_metrics results).routing_accuracy
          ∧ (collect_metrics results).action_steps_presence < (collect_metrics results).keyword_coverage)) := by
  have hacc := collectLoop_eq results [] [] []
  simp only [List.nil_append] at hacc
  simp only [collect_metrics, hacc]
  refine ⟨?_, ?_, ?_, ?_, ?_, ?_⟩
  · rw [if_isEmpty_eq_if_nil]
    by_cases h : results.filterMap (fun r => (r.evaluations.lookup "routing_accuracy").map (·.score)) = [] <;>
      simp [h, qmean]
  · rw [if_isEmpty_eq_if_nil]
    by_cases h : results.filterMap (fun r => (r.evaluations.lookup "keyword_coverage").map (·.score)) = [] <;>
      simp [h, qmean]
  · rw [if_isEmpty_eq_if_nil]
    by_cases h : results.filterMap (fun r => (r.evaluations.lookup "action_steps").map (fun e => pyBoolQ e.score)) = [] <;>
      simp [h, countP_eq_boolSum]
  · exact (bottleneck_iffs _ _ _).1
  · exact (bottleneck_iffs _ _ _).2.1
  · exact (bottleneck_iffs _ _ _).2.2

/-- Witness for the amended C8: the concrete ended tracer, a fresh
`start_trace`, and a `record_step` after it leave the returned trace's
observable steps untouched. -/
theorem end_trace_snapshot_after_start_trace_witness :
    (heapSteps (Tracer.start_trace tracerEndedState "trace-2" "2"
          Option.none Option.none Option.none Option.none Option.none 5).heap
        tracerEndedTrace.stepsRef
      = heapSteps tracerEndedState.heap tracerEndedTrace.stepsRef)
    ∧ heapSteps
        (Tracer.record_step
          (Tracer.start_trace tracerEndedState "trace-2" "2"
            Option.none Option.none Option.none Option.none Option.none 5)
          "post" [] [] Option.none 6 7).heap
        tracerEndedTrace.stepsRef
      = heapSteps tracerEndedState.heap tracerEndedTrace.stepsRef := by
  have h := end_trace_snapshot_after_start_trace tracerStarted Option.none 1
    tracerEndedState tracerEndedTrace
    (by norm_num [tracerStarted, Tracer.start_trace, Tracer.init]) rfl
    "trace-2" "2" Option.none Option.none Option.none Option.none Option.none 5
  exact ⟨h.1, h.2 "post" [] [] Option.none 6 7⟩

theorem except_bind_ok {ε α β : Type} (a : α) (f : α → Except ε β) :
    (Except.ok a >>= f : Except ε β) = f a := rfl

theorem except_pure_eq_ok {ε α : Type} (a : α) :
    (pure a : Except ε α) = Except.ok a := rfl

theorem gt_py_lookup_dict (k : String) :
    ∃ entries, (((GROUND_TRUTH.map (fun p => (p.1, p.2.toPy))).lookup k).getD (.pydict []))
      = PyVal.pydict entries := by
  cases h : (GROUND_TRUTH.map (fun p => (p.1, p.2.toPy))).lookup k with
  | none => exact ⟨[], rfl⟩
  | some v =>
    have hmem := lookup_mem _ _ _ h
    rw [List.mem_map] at hmem
    obtain ⟨⟨k', e⟩, _, heq⟩ := hmem
    have hv : v = e.toPy := (congrArg Prod.snd heq).symm
    subst hv
    exact ⟨_, rfl⟩

theorem gt_py_expected_keywords (k : String) :
    ∃ kws : List String,
      PyVal.dictGet
        (((GROUND_TRUTH.map (fun p => (p.1, p.2.toPy))).lookup k).getD (PyVal.pydict []))
        "expected_keywords" (PyVal.pylist [])
      = Except.ok (PyVal.pylist (kws.map PyVal.pystr)) := by
  cases h : (GROUND_TRUTH.map (fun p => (p.1, p.2.toPy))).lookup k with
  | none => exact ⟨[], rfl⟩
  | some v =>
    have hmem := lookup_mem _ _ _ h
    rw [List.mem_map] at hmem
    obtain ⟨⟨k', e⟩, _, heq⟩ := hmem
    have hv : v = e.toPy := (congrArg Prod.snd heq).symm
    subst hv
    exact ⟨e.expected_keywords, rfl⟩

theorem mapStrs_ok (kws : List String) :
    mapStrs (kws.map PyVal.pystr) = Except.ok kws := by
  induction kws with
  | nil => rfl
  | cons kw rest ih => simp [mapStrs, ih, Except.map]

theorem routing_no_raise_aux (ticket result : PyVal)
    (ht : wfTicket ticket = true) (hr : wfRoutingResult result = true) :
    (RoutingEvaluator.evaluatePy ticket result).isOk = true := by
  cases ticket <;> simp only [wfTicket] at ht
  all_goals try exact absurd ht (by decide)
  case pydict xs =>
  cases hid : xs.lookup "id" with
  | none => rw [hid] at ht; simp at ht
  | some idv =>
    obtain ⟨gte, hgt⟩ := gt_py_lookup_dict idv.pyStr
    cases result <;> simp only [wfRoutingResult] at hr
    all_goals try exact absurd hr (by decide)
    case pydict ys =>
    have hout : ∃ zs, ((ys.lookup "output").getD (PyVal.pydict [])) = PyVal.pydict zs := by
      cases ho : ys.lookup "output" with
      | none => exact ⟨[], rfl⟩
      | some v =>
        rw [ho] at hr
        cases v <;> simp at hr
        case pydict zs => exact ⟨zs, rfl⟩
    obtain ⟨zs, hzs⟩ := hout
    simp only [RoutingEvaluator.evaluatePy, PyVal.getItem, hid, GROUND_TRUTH_PY,
      PyVal.dictGet, hgt, hzs, except_bind_ok, except_pure_eq_ok]
    split <;> rfl

theorem keyword_no_raise_aux (ticket result : PyVal)
    (ht : wfTicket ticket = true) (hr : wfKeywordResult result = true) :
    (KeywordEvaluator.evaluatePy ticket result).isOk = true := by
  cases ticket <;> simp only [wfTicket] at ht
  all_goals try exact absurd ht (by decide)
  case pydict xs =>
  cases hid : xs.lookup "id" with
  | none => rw [hid] at ht; simp at ht
  | some idv =>
    obtain ⟨kws, hkws⟩ := gt_py_expected_keywords idv.pyStr
    cases result <;> simp only [wfKeywordResult] at hr
    all_goals try exact absurd hr (by decide)
    case pydict ys =>
    have hresp : ∃ s : String,
        getStep3Response (PyVal.pydict ys) = Except.ok s := by
      rw [show getStep3Response (PyVal.pydict ys)
          = (PyVal.dictGet ((ys.lookup "steps").getD (PyVal.pydict [])) "step_3" (PyVal.pydict [])
            >>= fun step3 => PyVal.dictGet step3 "response" (PyVal.pystr "")
            >>= fun respV =>
              (match (if respV.truthy then respV else PyVal.pystr "") with
               | PyVal.pystr s => Except.ok s
               | _ => Except.error (PyErr.attributeError "lower"))) from rfl]
      cases hsteps : ys.lookup "steps" with
      | none => exact ⟨"", rfl⟩
      | some v =>
        rw [hsteps] at hr
        cases v <;> simp at hr
        case pydict zs =>
        simp only [Option.getD_some]
        cases hz : zs.lookup "step_3" with
        | none =>
          refine ⟨"", ?_⟩
          simp only [PyVal.dictGet, except_bind_ok, hz, Option.getD_none]
          rfl
        | some w =>
          rw [hz] at hr
          cases w <;> simp at hr
          case pydict ws =>
          simp only [PyVal.dictGet, except_bind_ok, hz, Option.getD_some]
          cases hw : ws.lookup "response" with
          | none =>
            refine ⟨"", ?_⟩
            simp only [PyVal.dictGet, except_bind_ok, hw, Option.getD_none]
            rfl
          | some u =>
            rw [hw] at hr
            simp only [PyVal.dictGet, except_bind_ok, hw, Option.getD_some]
            cases u with
            | pystr s =>
              cases htr : (PyVal.pystr s).truthy <;> simp [htr]
            | pynone => exact ⟨"", rfl⟩
            | pybool b =>
              cases b
              · exact ⟨"", rfl⟩
              · simp [PyVal.truthy] at hr
            | pyint n =>
              have h0 : n = 0 := by
                by_cases h0 : n = 0
                · exact h0
                · simp [PyVal.truthy, h0] at hr
              subst h0
              exact ⟨"", rfl⟩
            | pyfloat q =>
              have h0 : q = 0 := by
                by_cases h0 : q = 0
                · exact h0
                · simp [PyVal.truthy, h0] at hr
              subst h0
              refine ⟨"", ?_⟩
              simp [PyVal.truthy]
            | pylist l =>
              have h0 : l = [] := by
                cases l with
                | nil => rfl
                | cons a r => simp [PyVal.truthy] at hr
              subst h0
              exact ⟨"", rfl⟩
            | pydict d =>
              have h0 : d = [] := by
                cases d with
                | nil => rfl
                | cons a r => simp [PyVal.truthy] at hr
              subst h0
              exact ⟨"", rfl⟩
    obtain ⟨s, hs⟩ := hresp
    have h1 : (PyVal.pydict xs).getItem "id" = Except.ok idv := by
      simp [PyVal.getItem, hid]
    have h2 : ∀ (k : String), PyVal.dictGet GROUND_TRUTH_PY k (PyVal.pydict [])
        = Except.ok (((GROUND_TRUTH.map (fun p => (p.1, p.2.toPy))).lookup k).getD
            (PyVal.pydict [])) := fun _ => rfl
    simp only [KeywordEvaluator.evaluatePy, h1, h2, hkws, hs, except_bind_ok,
      except_pure_eq_ok, mapStrs_ok]
    rfl

/-- Counterexample to C4 as stated: a ticket without an `"id"` key makes
both `RoutingEvaluator.evaluate` and `KeywordEvaluator.evaluate` raise
`KeyError` at `ticket["id"]` (the first line of each) instead of
returning a default `passed=false` record. -/
theorem evaluators_raise_on_missing_id :
    RoutingEvaluator.evaluatePy (PyVal.pydict []) (PyVal.pydict [])
        = Except.error (PyErr.keyError "id")
    ∧ KeywordEvaluator.evaluatePy (PyVal.pydict []) (PyVal.pydict [])
        = Except.error (PyErr.keyError "id") :=
  ⟨rfl, rfl⟩

/-- C4, amended: for every ticket that is a dict containing an `"id"` key
and every result whose relevant nested fields are absent or well-typed
(`output` a dict if present, for routing; `steps`/`step_3` dicts and
`response` a string-or-falsy value if present, for keywords), the
evaluators return a record and never raise — in particular missing
ground-truth entries degrade to a `passed=false` record rather than an
exception. The unqualified claim fails: a ticket without `"id"` raises
`KeyError` (see the counterexample), and ill-typed nested fields raise
`AttributeError`/`TypeError`. -/
theorem evaluators_no_raise_on_wf (ticket result : PyVal) :
    (wfTicket ticket = true → wfRoutingResult result = true →
      (RoutingEvaluator.evaluatePy ticket result).isOk = true)
    ∧ (wfTicket ticket = true → wfKeywordResult result = true →
      (KeywordEvaluator.evaluatePy ticket result).isOk = true) :=
  ⟨routing_no_raise_aux ticket result, keyword_no_raise_aux ticket result⟩

/-- Witness for the amended C4: both evaluators run without raising on a
concrete well-shaped ticket and result. -/
theorem evaluators_no_raise_on_wf_witness :
    (RoutingEvaluator.evaluatePy (PyVal.pydict [("id", PyVal.pystr "1")])
        (PyVal.pydict [("output",
          PyVal.pydict [("category", PyVal.pystr "upload_errors")])])).isOk = true
    ∧ (KeywordEvaluator.evaluatePy (PyVal.pydict [("id", PyVal.pystr "1")])
        (PyVal.pydict [("steps",
          PyVal.pydict [("step_3",
            PyVal.pydict [("response", PyVal.pystr "404 endpoint")])])])).isOk = true := by
  constructor
  · exact (evaluators_no_raise_on_wf _ _).1 rfl rfl
  · exact (evaluators_no_raise_on_wf _ _).2 rfl rfl
